import Mathlib

/-!
Verification development for the bta3-al3ab-backend requirements /
compatibility-scoring subsystem.

Strings of the JavaScript source are modelled as lists of characters
(`Str`), JavaScript numbers as rationals (`ℚ`; the concrete values the
program manipulates are small decimal fractions, for which rational
arithmetic agrees with IEEE doubles), `null`/`undefined` as `Option`,
and thrown exceptions as `Except`.  Each definition carries a reference
to the source location it embeds.
-/

/-- Character-list model of JavaScript strings. -/
abbrev Str := List Char

/-- Coerce a Lean string literal to the `Str` model. -/
def str (s : String) : Str := s.data

/-- ASCII lower-casing, as `String.prototype.toLowerCase` acts on the
ASCII characters this code base matches on (other characters are kept). -/
def toLowerS (s : Str) : Str := s.map Char.toLower

/-- Boolean test that `p` is a prefix of `s`. -/
def prefixB : Str → Str → Bool
  | [], _ => true
  | _ :: _, [] => false
  | a :: as, b :: bs => a == b && prefixB as bs

/-- Boolean test that `t` occurs as a contiguous substring of `s`
(the semantics of `String.prototype.includes`). -/
def containsB (s t : Str) : Bool :=
  match s with
  | [] => prefixB t []
  | _ :: rest => prefixB t s || containsB rest t

/-- JavaScript whitespace (the ASCII part of the regex class backslash-s). -/
def jsSpace (c : Char) : Bool :=
  c == ' ' || c == '\t' || c == '\n' || c == '\r' || c == '\x0b' || c == '\x0c'

/-- JavaScript `String.prototype.trim` (ASCII whitespace). -/
def trimJS (s : Str) : Str :=
  ((s.dropWhile jsSpace).reverse.dropWhile jsSpace).reverse

/-- Lower-case ASCII alphanumeric, the character class a-z0-9 used by
the token-splitting regex of `crudeCpuGpuMatch` (src/unnamed/part_005 line 38). -/
def isLowerAlnum (c : Char) : Bool :=
  ('a' ≤ c && c ≤ 'z') || ('0' ≤ c && c ≤ '9')

/-- Split on runs of characters outside a-z0-9 and drop empty pieces:
the effect of `r.split(/[^a-z0-9]+/).filter(Boolean)` on a lower-cased
string (src/unnamed/part_005 line 38). -/
def splitTokensGo (acc : Str) : Str → List Str
  | [] => if acc.isEmpty then [] else [acc.reverse]
  | c :: cs =>
    if isLowerAlnum c then splitTokensGo (c :: acc) cs
    else if acc.isEmpty then splitTokensGo [] cs
    else acc.reverse :: splitTokensGo [] cs

/-- Token list of a requirement string, see `splitTokensGo`. -/
def splitTokens (s : Str) : List Str := splitTokensGo [] s

/-!  Scoring engine, src/unnamed/part_005.  -/

/-- clamp01 (src/unnamed/part_005 lines 11-16).  The `typeof`/`NaN`
guard of the source cannot fire on a rational. -/
def clamp01 (v : ℚ) : ℚ :=
  if v < 0 then 0 else if 1 < v then 1 else v

/-- Brand token list of `crudeCpuGpuMatch` (src/unnamed/part_005 line 47). -/
def brands : List Str :=
  [str "intel", str "amd", str "nvidia", str "geforce",
   str "radeon", str "gtx", str "rtx", str "rx"]

/-- crudeCpuGpuMatch (src/unnamed/part_005 lines 28-53): textual CPU/GPU
match score in 0..1. -/
def crudeCpuGpuMatch (userStr reqStr : Str) : ℚ :=
  if reqStr = [] then 0
  else
    let u := toLowerS userStr
    let r := toLowerS reqStr
    if u = [] then 0
    else if containsB u r || containsB r u then 1
    else if (splitTokens r).any (fun t => 2 ≤ t.length && containsB u t) then 7/10
    else if brands.any (fun b => containsB r b && containsB u b) then 2/5
    else 0

/-- One requirement tier record as produced by the parsers:
`{cpu, gpu, ram, ramGB, storage, storageGB, os}`, every field nullable. -/
structure ReqTier where
  cpu : Option Str
  gpu : Option Str
  ram : Option Str
  ramGB : Option ℚ
  storage : Option Str
  storageGB : Option ℚ
  os : Option Str
deriving DecidableEq, Repr

/-- The all-null requirement record. -/
def nullTier : ReqTier := ⟨none, none, none, none, none, none, none⟩

/-- Requirements value consumed by the scorer; either tier may be absent. -/
structure GameReqs where
  minimum : Option ReqTier
  recommended : Option ReqTier
deriving DecidableEq, Repr

/-- Requirements value produced by the adapters: both tiers present. -/
structure GameReqs2 where
  minimum : ReqTier
  recommended : ReqTier
deriving DecidableEq, Repr

/-- JavaScript truthiness of a nullable string: non-null and non-empty. -/
def truthyS : Option Str → Bool
  | none => false
  | some s => !s.isEmpty

/-- The meaningful-data test `t.cpu || t.gpu || t.ram || t.storage` used by
the scorer tier selection (src/unnamed/part_005 line 78), the Steam adapter
(src/utils/fetchRequirements.js lines 126-128) and the resolver
(src/utils/fetchRequirements.js lines 260-272). -/
def hasAnyCore (t : ReqTier) : Bool :=
  truthyS t.cpu || truthyS t.gpu || truthyS t.ram || truthyS t.storage

/-- Scoring weights after the `Object.assign` merge with the defaults
(src/unnamed/part_005 lines 64-70). -/
structure Weights where
  cpu : ℚ
  gpu : ℚ
  ram : ℚ
  storage : ℚ
  os : ℚ
deriving DecidableEq, Repr

/-- The default weights cpu 0.30, gpu 0.30, ram 0.15, storage 0.15, os 0.10. -/
def defaultWeights : Weights := ⟨3/10, 3/10, 3/20, 3/20, 1/10⟩

/-- User hardware profile `{cpu, gpu, ramGB, storageGB, os}`. -/
structure UserProfile where
  cpu : Str
  gpu : Str
  ramGB : ℚ
  storageGB : ℚ
  os : Str
deriving DecidableEq, Repr

/-- Tier selection (src/unnamed/part_005 lines 78-80): prefer `recommended`
when it has any of cpu/gpu/ram/storage truthy, else `minimum`. -/
def pickReqTier (reqs : Option GameReqs) : Option ReqTier :=
  match reqs with
  | none => none
  | some R =>
    match R.recommended with
    | some rec => if hasAnyCore rec then some rec else R.minimum
    | none => R.minimum

/-- Model of `x || ''` on a nullable string. -/
def orEmptyS : Option Str → Str
  | none => []
  | some s => s

/-- First run of characters satisfying `p` in `s` (the match of a regex
`[class]+` somewhere in the string), or `none` when no character matches. -/
def firstRunOf (p : Char → Bool) : Str → Option Str
  | [] => none
  | c :: rest =>
    if p c then some ((c :: rest).takeWhile p) else firstRunOf p rest

/-- Digits or dot, the class of the scorer regex `[\d.]+`
(src/unnamed/part_005 lines 87-89). -/
def isDigitDot (c : Char) : Bool := c.isDigit || c == '.'

/-- Decimal value of a digit list. -/
def digitsToNat (s : Str) : Nat :=
  s.foldl (fun acc c => acc * 10 + (c.toNat - '0'.toNat)) 0

/-- JavaScript `Number(s)` on a string made of digits and dots: a valid
decimal literal has at most one dot and at least one digit; anything else
is NaN, modelled as `none`. -/
def numberJS (s : Str) : Option ℚ :=
  if s.all isDigitDot && s.any Char.isDigit && s.count '.' ≤ 1 then
    let intPart := s.takeWhile Char.isDigit
    let rest := s.drop intPart.length
    let frac := rest.drop 1
    some ((digitsToNat intPart : ℚ) + (digitsToNat frac : ℚ) / (10 : ℚ) ^ frac.length)
  else none

/-- `Number(String(x).match(/[\d.]+/)?.[0])` of the scorer
(src/unnamed/part_005 lines 87-89); `none` models NaN
(`Number(undefined)` when there is no match). -/
def numFromJsStr (s : Str) : Option ℚ :=
  match firstRunOf isDigitDot s with
  | none => none
  | some run => numberJS run

/-- RAM requirement value (src/unnamed/part_005 lines 85, 88-89):
`reqRamStr = req?.ram || req?.ramGB || ''` followed by
`(typeof reqRamStr === 'number' && reqRamStr > 0) ? reqRamStr
 : (reqRamStr ? Number(String(reqRamStr).match(/[\d.]+/)?.[0]) : 0)`.
`none` models NaN.  A negative `ramGB` number is stringified and the
sign is dropped by the digit regex, giving `-q`; the parsers of this
repository never produce a negative `ramGB`. -/
def reqRamOfGB : Option ℚ → Option ℚ
  | some q => if 0 < q then some q else if q = 0 then some 0 else some (-q)
  | none => some 0

/-- See `reqRamOfGB`; the string alternative of the `||` chain. -/
def reqRamOf (req : Option ReqTier) : Option ℚ :=
  match req with
  | none => some 0
  | some t =>
    match t.ram with
    | some s => if s.isEmpty then reqRamOfGB t.ramGB else numFromJsStr s
    | none => reqRamOfGB t.ramGB

/-- Storage requirement value (src/unnamed/part_005 lines 86-87):
`(typeof req?.storageGB === 'number' && req.storageGB > 0) ? req.storageGB
 : (req?.storage ? Number(String(req.storage).match(/[\d.]+/)?.[0]) : 0)`. -/
def reqStorageOf (req : Option ReqTier) : Option ℚ :=
  match req with
  | none => some 0
  | some t =>
    match t.storageGB with
    | some q =>
      if 0 < q then some q
      else match t.storage with
           | some s => if s.isEmpty then some 0 else numFromJsStr s
           | none => some 0
    | none =>
      match t.storage with
      | some s => if s.isEmpty then some 0 else numFromJsStr s
      | none => some 0

/-- The test `x > 0` on a possibly-NaN number (`none`): NaN compares false. -/
def posO : Option ℚ → Bool
  | some q => decide (0 < q)
  | none => false

/-- RAM axis score (src/unnamed/part_005 lines 96-102): ratio clamped to
0..1 when a requirement is stated, else 1 iff the user has any RAM. -/
def ramScoreOf (userRam : ℚ) (reqRam : Option ℚ) : ℚ :=
  if posO reqRam then clamp01 (userRam / reqRam.getD 0)
  else if 0 < userRam then 1 else 0

/-- Storage axis score (src/unnamed/part_005 lines 105-110). -/
def storScoreOf (userStorage : ℚ) (reqStorage : Option ℚ) : ℚ :=
  if posO reqStorage then clamp01 (userStorage / reqStorage.getD 0)
  else if 0 < userStorage then 1 else 0

/-- OS requirement string (src/unnamed/part_005 line 114):
`(req?.os || requirements?.minimum?.os || '').toString().toLowerCase()`. -/
def reqOsOf (req : Option ReqTier) (reqs : Option GameReqs) : Str :=
  toLowerS
    (match req with
     | some t =>
       match t.os with
       | some s =>
         if s.isEmpty then orEmptyS ((reqs.bind GameReqs.minimum).bind ReqTier.os) else s
       | none => orEmptyS ((reqs.bind GameReqs.minimum).bind ReqTier.os)
     | none => orEmptyS ((reqs.bind GameReqs.minimum).bind ReqTier.os))

/-- OS axis score (src/unnamed/part_005 lines 113-120). -/
def osScoreOf (userOs : Str) (reqOs : Str) : ℚ :=
  if reqOs.isEmpty then 1
  else if containsB reqOs userOs || containsB userOs reqOs then 1 else 0

/-- Per-axis breakdown exposed by the scorer (src/unnamed/part_005
lines 151-155). -/
structure Breakdown where
  cpuScore : ℚ
  gpuScore : ℚ
  ramScore : ℚ
  storageScore : ℚ
  osScore : ℚ
  cpuComp : ℚ
  gpuComp : ℚ
  ramComp : ℚ
  storageComp : ℚ
  osComp : ℚ
  s1 : ℚ
  s2 : ℚ
  s3 : ℚ
  s4 : ℚ
deriving DecidableEq, Repr

/-- Scorer result `{score, tier, breakdown}`. -/
structure ScoreResult where
  score : ℚ
  tier : Str
  breakdown : Breakdown
deriving DecidableEq, Repr

/-- Tier thresholds (src/unnamed/part_005 lines 142-146). -/
def tierOfScore (score : ℚ) : Str :=
  if 0.85 ≤ score then str "Strong"
  else if 0.6 ≤ score then str "Medium"
  else if 0.35 ≤ score then str "Weak"
  else str "Cannot Run"

/-- computePerformanceScore (src/unnamed/part_005 lines 62-157).
`W` is the weight record after the `Object.assign` merge with the
defaults; `user.ramGB`/`user.storageGB` are numbers, on which
`Number(x) || 0` is the identity (NaN does not arise on rationals). -/
def computePerformanceScore (user : UserProfile) (reqs : Option GameReqs)
    (W : Weights) : ScoreResult :=
  let req := pickReqTier reqs
  let reqCpu := orEmptyS (req.bind ReqTier.cpu)
  let reqGpu := orEmptyS (req.bind ReqTier.gpu)
  let cpuScore := clamp01 (crudeCpuGpuMatch user.cpu reqCpu)
  let gpuScore := clamp01 (crudeCpuGpuMatch user.gpu reqGpu)
  let ramScore := ramScoreOf user.ramGB (reqRamOf req)
  let storageScore := storScoreOf user.storageGB (reqStorageOf req)
  let osScore := osScoreOf (toLowerS user.os) (reqOsOf req reqs)
  let cpuComp := W.cpu * cpuScore
  let gpuComp := W.gpu * gpuScore
  let ramComp := W.ram * ramScore
  let storageComp := W.storage * storageScore
  let osComp := W.os * osScore
  let s1 := cpuComp
  let s2 := s1 + gpuComp
  let s3 := s2 + ramComp
  let s4 := s3 + storageComp
  let score := clamp01 (s4 + osComp)
  { score := score
    tier := tierOfScore score
    breakdown :=
      ⟨cpuScore, gpuScore, ramScore, storageScore, osScore,
       cpuComp, gpuComp, ramComp, storageComp, osComp, s1, s2, s3, s4⟩ }

/-!  Number parsing helpers shared by the adapters and scripts.  -/

/-- Digits, dot or comma: the class of the regex `[\d.,]+` used by
`parseSizeGB` (src/scripts/merge-fallback-requirements.js lines 540-546,
src/unnamed/part_004 lines 71-76). -/
def isDigitDotComma (c : Char) : Bool := c.isDigit || c == '.' || c == ','

/-- `String.prototype.replace(',', '.')`: only the first comma is replaced. -/
def replaceFirstComma : Str → Str
  | [] => []
  | c :: rest => if c == ',' then '.' :: rest else c :: replaceFirstComma rest

/-- JavaScript `parseFloat` restricted to the digit/dot/comma strings it is
fed here: longest leading `digits [. digits]` prefix; NaN (`none`) when no
digit is read. -/
def parseFloatJS (s : Str) : Option ℚ :=
  let ip := s.takeWhile Char.isDigit
  match s.drop ip.length with
  | '.' :: r2 =>
    let fp := r2.takeWhile Char.isDigit
    if ip.isEmpty && fp.isEmpty then none
    else some ((digitsToNat ip : ℚ) + (digitsToNat fp : ℚ) / (10 : ℚ) ^ fp.length)
  | _ => if ip.isEmpty then none else some ((digitsToNat ip : ℚ))

/-- parseSizeGB (src/scripts/merge-fallback-requirements.js lines 540-546):
first `[\d.,]+` run, first comma turned into a dot, `parseFloat`; `null`
(`none`) when there is no match or the result is NaN. -/
def parseSizeGB (s : Str) : Option ℚ :=
  match firstRunOf isDigitDotComma s with
  | none => none
  | some run => parseFloatJS (replaceFirstComma run)

/-- parseSizeGB of src/unnamed/part_004 lines 71-76: same as `parseSizeGB`
but returning 0 for a missing string or match; `none` models a NaN result
of `parseFloat`. -/
def parseSizeGB4 (s : Str) : Option ℚ :=
  if s.isEmpty then some 0
  else
    match firstRunOf isDigitDotComma s with
    | none => some 0
    | some run => parseFloatJS (replaceFirstComma run)

/-!  Fallback-table adapter, src/utils/fetchRequirements.js lines 181-209.  -/

/-- Model of `x || null` on a nullable string (empty strings are falsy). -/
def orNullS (x : Option Str) : Option Str := if truthyS x then x else none

/-- Model of `a || b || null` on nullable strings. -/
def pickS (a b : Option Str) : Option Str :=
  if truthyS a then a else if truthyS b then b else none

/-- A raw fallback-table `recommended` override record. -/
structure FallbackRec where
  cpu : Option Str
  gpu : Option Str
  ram : Option Str
  storage : Option Str
  os : Option Str
deriving DecidableEq, Repr

/-- A raw fallback-table entry (src/cache/fallbackRequirements.json shape):
top-level minimum fields plus an optional nested `recommended` override. -/
structure FallbackEntry where
  cpu : Option Str
  gpu : Option Str
  ram : Option Str
  storage : Option Str
  os : Option Str
  recommended : Option FallbackRec
deriving DecidableEq, Repr

/-- Minimum tier built by `normalizeFallbackEntry`
(src/utils/fetchRequirements.js lines 184-192). -/
def fbMin (e : FallbackEntry) : ReqTier :=
  { cpu := orNullS e.cpu
    gpu := orNullS e.gpu
    ram := orNullS e.ram
    ramGB := if truthyS e.ram then parseSizeGB (e.ram.getD []) else none
    storage := orNullS e.storage
    storageGB := if truthyS e.storage then parseSizeGB (e.storage.getD []) else none
    os := orNullS e.os }

/-- Recommended tier built by `normalizeFallbackEntry`
(src/utils/fetchRequirements.js lines 194-203): each field prefers the
nested `recommended` override and falls back to the top-level field. -/
def fbRec (e : FallbackEntry) : ReqTier :=
  { cpu := pickS (e.recommended.bind FallbackRec.cpu) e.cpu
    gpu := pickS (e.recommended.bind FallbackRec.gpu) e.gpu
    ram := pickS (e.recommended.bind FallbackRec.ram) e.ram
    ramGB :=
      if truthyS (e.recommended.bind FallbackRec.ram) then
        parseSizeGB ((e.recommended.bind FallbackRec.ram).getD [])
      else if truthyS e.ram then parseSizeGB (e.ram.getD []) else none
    storage := pickS (e.recommended.bind FallbackRec.storage) e.storage
    storageGB :=
      if truthyS (e.recommended.bind FallbackRec.storage) then
        parseSizeGB ((e.recommended.bind FallbackRec.storage).getD [])
      else if truthyS e.storage then parseSizeGB (e.storage.getD []) else none
    os := pickS (e.recommended.bind FallbackRec.os) e.os }

/-- normalizeFallbackEntry (src/utils/fetchRequirements.js lines 181-209).
The source returns `null` for a non-object argument; the typed model takes
an entry record. -/
def normalizeFallbackEntry (e : FallbackEntry) : GameReqs2 :=
  ⟨fbMin e, fbRec e⟩

/-!  Steam adapter normalization, src/utils/fetchRequirements.js
lines 110-141 (also src/unnamed/part_004 lines 273-281).  -/

/-- Structure normalization of `fetchFromSteamByAppId` as a function of the
two parsed requirement blocks (`minimum`/`recommended` are `null` when the
corresponding HTML block is absent): the meaningful-data test of lines
125-130 followed by `{minimum: minimum || {}, recommended: recommended ||
minimum || {}}` of lines 133-136. -/
def steamNormalizeReqs (pmin prec : Option ReqTier) : Option GameReqs2 :=
  let hasData :=
    (match pmin with | some m => hasAnyCore m | none => false)
    || (match prec with | some r => hasAnyCore r | none => false)
  if hasData then some ⟨pmin.getD nullTier, (prec <|> pmin).getD nullTier⟩
  else none

/-!  Multi-source resolver, src/utils/fetchRequirements.js lines 218-297.  -/

/-- Adapters the resolvers may consult. -/
inductive SrcAdapter where
  | steam
  | rawg
  | fallbackTable
deriving DecidableEq, Repr

/-- Game metadata consumed by the resolver of src/utils/fetchRequirements.js. -/
structure GameMetaU where
  id : Str
  name : Str
  steamAppId : Option Nat
deriving DecidableEq, Repr

/-- Cache entry `{source, requirements}`; the wall-clock `fetchedAt`
timestamp is outside the shallow embedding. -/
structure CacheDataM where
  source : Str
  requirements : Option GameReqs2
deriving DecidableEq, Repr

/-- Failures the resolver can raise to its caller. -/
inductive ResolveErr where
  | invalidInput
  | cacheWriteFailure
deriving DecidableEq, Repr

/-- External world of one resolution pass: the cache-read outcome, each
adapter's response, and whether the cache write succeeds.  `writeOk = false`
models an `fs` failure inside `writeCache`, which the source re-throws
(src/utils/fetchRequirements.js lines 65-82). -/
structure EnvU where
  cached : Option CacheDataM
  fallbackRes : Option GameReqs2
  searchAppId : Option Nat
  steamRes : Option GameReqs2
  writeOk : Bool
deriving DecidableEq, Repr

instance {ε α : Type} [DecidableEq ε] [DecidableEq α] : DecidableEq (Except ε α)
  | .error a, .error b => decidable_of_iff (a = b) (by simp)
  | .error _, .ok _ => isFalse (by simp)
  | .ok _, .error _ => isFalse (by simp)
  | .ok a, .ok b => decidable_of_iff (a = b) (by simp)

/-- Result of a resolution pass plus the adapters consulted, in order
(call-count instrumentation of the adapter chain). -/
structure ResolveRun where
  result : Except ResolveErr CacheDataM
  calls : List SrcAdapter
deriving DecidableEq, Repr

/-- The resolver's meaningful-requirements test
(src/utils/fetchRequirements.js lines 260-272). -/
def hasMeaningful (gr : GameReqs2) : Bool :=
  hasAnyCore gr.minimum || hasAnyCore gr.recommended

/-- The `{source:'none', requirements:null}` outcome
(src/utils/fetchRequirements.js lines 287-296): cached via an awaited
`writeCache`, whose failure propagates. -/
def noneOutcomeU (env : EnvU) : ResolveRun :=
  ⟨if env.writeOk then .ok ⟨str "none", none⟩ else .error .cacheWriteFailure,
   [.fallbackTable, .steam]⟩

/-- getRequirementsForGame (src/utils/fetchRequirements.js lines 218-297):
invalid-input guard, cache read (skipped under `forceFetch`), then the
fallback table, then Steam (by known app id, else by name search), then the
cached `none` entry.  Every successful branch awaits `writeCache`, so a
cache-write failure surfaces as an error. -/
def getRequirementsForGameU (meta : GameMetaU) (forceFetch : Bool) (env : EnvU) :
    ResolveRun :=
  if meta.id.isEmpty || meta.name.isEmpty then ⟨.error .invalidInput, []⟩
  else
    match (if forceFetch then none else env.cached) with
    | some c => ⟨.ok c, []⟩
    | none =>
      match env.fallbackRes with
      | some fr =>
        ⟨if env.writeOk then .ok ⟨str "fallback", some fr⟩
          else .error .cacheWriteFailure,
         [.fallbackTable]⟩
      | none =>
        match meta.steamAppId <|> env.searchAppId with
        | some _ =>
          match env.steamRes with
          | some sr =>
            if hasMeaningful sr then
              ⟨if env.writeOk then .ok ⟨str "steam", some sr⟩
                else .error .cacheWriteFailure,
               [.fallbackTable, .steam]⟩
            else noneOutcomeU env
          | none => noneOutcomeU env
        | none => noneOutcomeU env

/-!  Category-based resolver of src/unnamed/part_004 lines 363-537.  -/

/-- Game categories of the part_004 resolver. -/
inductive GType where
  | online
  | indie
  | offline
deriving DecidableEq, Repr

/-- Game metadata consumed by `classifyGameType`; `categories` is
`gameMeta.categories || []` and `size` is `gameMeta.size || ''`. -/
structure GameMeta4 where
  categories : List Str
  size : Str
deriving DecidableEq, Repr

/-- Online/competitive keywords (src/unnamed/part_004 line 374). -/
def onlineKeywords : List Str :=
  [str "shooter", str "competitive", str "online",
   str "battle-royale", str "multiplayer"]

/-- classifyGameType (src/unnamed/part_004 lines 368-388). -/
def classifyGameType (m : GameMeta4) : GType :=
  let cat := m.categories.map toLowerS
  if cat.any (fun c => onlineKeywords.any (fun kw => containsB c kw)) then .online
  else
    match parseSizeGB4 m.size with
    | some q => if 0 < q && q < 10 then .indie else .offline
    | none => .offline

/-- Adapter priority list built by the part_004 resolver
(src/unnamed/part_004 lines 428-476): online and indie games push the RAWG
closure first, offline games push the Steam closure (by app id or name
search) and then RAWG; every list ends with the fallback-table closure. -/
def tryOrder (m : GameMeta4) : List SrcAdapter :=
  match classifyGameType m with
  | .online => [.rawg, .fallbackTable]
  | .indie => [.rawg, .fallbackTable]
  | .offline => [.steam, .rawg, .fallbackTable]

/-!  Cache file naming, src/utils/fetchRequirements.js lines 29-33.  -/

/-- ASCII alphanumeric of either case, the class `[^a-z0-9]/gi` keeps. -/
def isAlnumAnyCase (c : Char) : Bool :=
  ('a' ≤ c && c ≤ 'z') || ('A' ≤ c && c ≤ 'Z') || ('0' ≤ c && c ≤ '9')

/-- The safe slug `String(gameId).replace(/[^a-z0-9]/gi, '_')`. -/
def safeSlug (gameId : Str) : Str :=
  gameId.map (fun c => if isAlnumAnyCase c then c else '_')

/-- cachePath (src/utils/fetchRequirements.js lines 29-33); the cache
directory prefix is a fixed path. -/
def cachePath (gameId : Str) : Str :=
  str "cache/requirements/" ++ safeSlug gameId ++ str ".json"

/-- readCache keyed through `cachePath` (src/utils/fetchRequirements.js
lines 40-58); `store` abstracts the cache directory contents. -/
def readCacheKeyed (store : Str → Option CacheDataM) (gameId : Str) :
    Option CacheDataM :=
  store (cachePath gameId)

/-- writeCache keyed through `cachePath` (src/utils/fetchRequirements.js
lines 65-82): unconditionally overwrites the file for the id's path. -/
def writeCacheKeyed (store : Str → Option CacheDataM) (gameId : Str)
    (data : CacheDataM) : Str → Option CacheDataM :=
  fun p => if p = cachePath gameId then some data else store p

/-!  Specification-side restatement for the crude CPU/GPU matcher.  -/

/-- Transcription of the claim about `crudeCpuGpuMatch`: 0 for an empty
requirement, else 0 for an empty user string, else 1.0 on mutual
case-insensitive containment, else 0.7 when a requirement token of length
at least 2 (splitting on characters outside a-z0-9 after lower-casing)
occurs in the lower-cased user string, else 0.4 when both strings contain
a common brand token, else 0. -/
def crudeMatchSpec (userStr reqStr : Str) : ℚ :=
  if reqStr = [] then 0
  else if userStr = [] then 0
  else if containsB (toLowerS userStr) (toLowerS reqStr)
          || containsB (toLowerS reqStr) (toLowerS userStr) then 1
  else if ∃ t ∈ splitTokens (toLowerS reqStr),
            2 ≤ t.length ∧ containsB (toLowerS userStr) t = true then 7/10
  else if ∃ b ∈ brands, containsB (toLowerS reqStr) b = true
            ∧ containsB (toLowerS userStr) b = true then 2/5
  else 0

/-!  A small backtracking regular-expression engine with JavaScript
semantics (leftmost match, left-biased alternation, greedy quantifiers
with backtracking, one capture group, end anchor), used to embed the
regex-based parsers.  -/

/-- Regex abstract syntax: empty, single-character class, sequence,
alternation, bounded/unbounded repetition, capture group, end anchor. -/
inductive RE where
  | eps
  | cls (p : Char → Bool)
  | seq (a b : RE)
  | alt (a b : RE)
  | rep (lo : Nat) (hi : Option Nat) (r : RE)
  | grp (r : RE)
  | eos

/-- Decrement an optional repetition bound. -/
def hiDec : Option Nat → Option Nat
  | none => none
  | some n => some (n - 1)

/-- Backtracking matcher in continuation style.  The continuation receives
the remaining input and the capture recorded so far; `none` from the
continuation triggers backtracking.  Repetition is greedy: the consuming
branch is tried first.  A repetition step that consumes nothing stops the
iteration (as JavaScript engines do for an empty match).  `fuel` bounds the
recursion depth and is chosen large enough in `reMatchAt`. -/
def reGo (fuel : Nat) (r : RE) (s : Str) (cap : Option Str)
    (k : Str → Option Str → Option (Str × Option Str)) :
    Option (Str × Option Str) :=
  match fuel with
  | 0 => none
  | f + 1 =>
    match r with
    | .eps => k s cap
    | .cls p =>
      match s with
      | [] => none
      | c :: rest => if p c then k rest cap else none
    | .seq a b => reGo f a s cap (fun s1 c1 => reGo f b s1 c1 k)
    | .alt a b =>
      match reGo f a s cap k with
      | some res => some res
      | none => reGo f b s cap k
    | .grp a =>
      reGo f a s cap (fun s1 _ => k s1 (some (s.take (s.length - s1.length))))
    | .eos =>
      match s with
      | [] => k s cap
      | _ :: _ => none
    | .rep lo hi a =>
      match lo with
      | l + 1 => reGo f a s cap (fun s1 c1 => reGo f (.rep l (hiDec hi) a) s1 c1 k)
      | 0 =>
        match hi with
        | some 0 => k s cap
        | _ =>
          match reGo f a s cap (fun s1 c1 =>
              if s1.length < s.length then reGo f (.rep 0 (hiDec hi) a) s1 c1 k
              else k s1 c1) with
          | some res => some res
          | none => k s cap

/-- Try to match `r` at the start of `s`; on success return the matched
text (`match[0]`) and the capture (`match[1]`). -/
def reMatchAt (r : RE) (s : Str) : Option (Str × Option Str) :=
  match reGo ((s.length + 2) * 128) r s none (fun rem cap => some (rem, cap)) with
  | some (rem, cap) => some (s.take (s.length - rem.length), cap)
  | none => none

/-- Leftmost match of `r` in `s` (the semantics of `String.prototype.match`
without the global flag). -/
def reSearch (r : RE) : Str → Option (Str × Option Str)
  | [] => reMatchAt r []
  | c :: rest =>
    match reMatchAt r (c :: rest) with
    | some res => some res
    | none => reSearch r rest

/-- The text before the first match of `r`: `s.split(r)[0]`.  The delimiter
patterns used here always consume at least one character. -/
def reSplitHead (r : RE) : Str → Str
  | [] => []
  | c :: rest =>
    match reMatchAt r (c :: rest) with
    | some (m, _) => if m.isEmpty then c :: reSplitHead r rest else []
    | none => c :: reSplitHead r rest

/-- Fuel-indexed worker for global regex replacement. -/
def reReplaceAllGo (r : RE) (repl : Str) : Nat → Str → Str
  | _, [] => []
  | 0, s => s
  | f + 1, c :: rest =>
    match reMatchAt r (c :: rest) with
    | some (m, _) =>
      if m.isEmpty then c :: reReplaceAllGo r repl f rest
      else repl ++ reReplaceAllGo r repl f ((c :: rest).drop m.length)
    | none => c :: reReplaceAllGo r repl f rest

/-- `s.replace(r, repl)` with the global flag: every non-overlapping
leftmost match is replaced. -/
def reReplaceAll (r : RE) (repl : Str) (s : Str) : Str :=
  reReplaceAllGo r repl (s.length + 1) s

/-- Fuel-indexed worker for global literal replacement. -/
def replaceAllLitGo (pat repl : Str) : Nat → Str → Str
  | _, [] => []
  | 0, s => s
  | f + 1, c :: rest =>
    if !pat.isEmpty && prefixB pat (c :: rest) then
      repl ++ replaceAllLitGo pat repl f ((c :: rest).drop pat.length)
    else c :: replaceAllLitGo pat repl f rest

/-- `s.replace(/lit/g, repl)` for a literal pattern. -/
def replaceAllLit (pat repl s : Str) : Str :=
  replaceAllLitGo pat repl (s.length + 1) s

/-- `s.replace(/pat/i, repl)` for a literal case-insensitive pattern
(`pat` given lower-case): only the first occurrence is replaced. -/
def replaceFirstCI (pat repl : Str) : Str → Str
  | [] => []
  | c :: rest =>
    if prefixB pat (toLowerS (c :: rest)) then repl ++ (c :: rest).drop pat.length
    else c :: replaceFirstCI pat repl rest

/-- Drop an anchored leading match (`s.replace(/^.../i, '')`). -/
def stripAnchored (r : RE) (s : Str) : Str :=
  match reMatchAt r s with
  | some (m, _) => s.drop m.length
  | none => s

/-!  Regex builders.  -/

/-- Case-insensitive literal character. -/
def rc (c : Char) : RE := .cls (fun x => x.toLower == c)

/-- Case-insensitive literal word (give it lower-case). -/
def rlit (w : String) : RE := (w.data.map rc).foldr RE.seq .eps

/-- Left-biased alternation of a list. -/
def rAlts : List RE → RE
  | [] => .eps
  | [r] => r
  | r :: rs => .alt r (rAlts rs)

/-- Sequence of a list. -/
def rSeqs (l : List RE) : RE := l.foldr RE.seq .eps

/-- Zero-or-one. -/
def rOpt (r : RE) : RE := .rep 0 (some 1) r

/-- Zero-or-more. -/
def rStar (r : RE) : RE := .rep 0 none r

/-- One-or-more. -/
def rPlus (r : RE) : RE := .rep 1 none r

/-- Bounded repetition lo..hi. -/
def rRange (lo hi : Nat) (r : RE) : RE := .rep lo (some hi) r

/-- Whitespace class backslash-s. -/
def rSp : RE := .cls jsSpace

/-- Digit class backslash-d. -/
def rDig : RE := .cls Char.isDigit

/-- The class `[^<>\n]`. -/
def rNotAngleNl : RE := .cls (fun c => !(c == '<' || c == '>' || c == '\n'))

/-- The class `[^>]`. -/
def rNotGt : RE := .cls (fun c => !(c == '>'))

/-- The class `[<>\n]` that leads the split delimiters. -/
def rAngleNl : RE := .cls (fun c => c == '<' || c == '>' || c == '\n')

/-!  Shared strip-stage patterns.  -/

/-- The regex for a br tag with optional self-closing slash. -/
def brTagRE : RE := rSeqs [rc '<', rc 'b', rc 'r', rStar rSp, rOpt (rc '/'), rc '>']

/-- The tag-stripping regex of the enhanced parser: angle bracket, optional
slash, one or more non-closing characters, then a closing bracket or the
end of the string. -/
def anyTagEosRE : RE := rSeqs [rc '<', rOpt (rc '/'), rPlus rNotGt, .alt (rc '>') .eos]

/-- The simpler tag-stripping regex of the legacy parser (closing bracket
required). -/
def anyTagSimpleRE : RE := rSeqs [rc '<', rPlus rNotGt, rc '>']

/-- A whitespace run (collapsed to one space). -/
def wsRunRE : RE := rPlus rSp

/-- Opening strong tag with attributes. -/
def strongOpenRE : RE := rSeqs [rc '<', rlit "strong", rStar rNotGt, rc '>']

/-- Opening b tag with attributes. -/
def bOpenRE : RE := rSeqs [rc '<', rc 'b', rStar rNotGt, rc '>']

/-!  Enhanced Steam HTML parser, src/scripts/merge-fallback-requirements.js
lines 572-733 (the module exported as utils/parseSteamHTML.js and imported
by src/utils/fetchRequirements.js).  -/

/-- Markup stripping of the enhanced parser (lines 585-597): br tags to
newlines, remaining tags to spaces, entity decoding, whitespace collapsing,
trim. -/
def stripEnhanced (html : Str) : Str :=
  let t := reReplaceAll brTagRE (str "\n") html
  let t := reReplaceAll anyTagEosRE (str " ") t
  let t := replaceAllLit (str "&nbsp;") (str " ") t
  let t := replaceAllLit (str "&amp;") (str "&") t
  let t := replaceAllLit (str "&lt;") (str "<") t
  let t := replaceAllLit (str "&gt;") (str ">") t
  let t := replaceAllLit (str "&quot;") (str "\"") t
  let t := replaceAllLit (str "&#39;") (str "'") t
  let t := replaceAllLit (str "&#x27;") (str "'") t
  let t := reReplaceAll wsRunRE (str " ") t
  trimJS t

/-- `match[1] || match[0]` on a regex match result. -/
def matchPick (m : Str × Option Str) : Str :=
  match m.2 with
  | some c => if c.isEmpty then m.1 else c
  | none => m.1

/-- `match[1]?.trim() || match[0]?.trim()` (legacy RAM extraction). -/
def matchPickTrim (m : Str × Option Str) : Str :=
  match m.2 with
  | some c => if (trimJS c).isEmpty then trimJS m.1 else trimJS c
  | none => trimJS m.1

/-- Run an ordered pattern list: the first pattern that matches and whose
processing succeeds wins (the for-loop with `break` of both parsers). -/
def scanPatterns {α : Type} (pats : List RE)
    (proc : (Str × Option Str) → Option α) (text : Str) : Option α :=
  match pats with
  | [] => none
  | p :: rest =>
    match reSearch p text with
    | some m =>
      match proc m with
      | some v => some v
      | none => scanPatterns rest proc text
    | none => scanPatterns rest proc text

/-- Shared RAM-quantity capture `(\d+(?:\s*gb|\s*mb|\s*tb)?)`. -/
def ramQtyRE : RE :=
  rSeqs [rPlus rDig,
         rOpt (rAlts [rSeqs [rStar rSp, rlit "gb"],
                      rSeqs [rStar rSp, rlit "mb"],
                      rSeqs [rStar rSp, rlit "tb"]])]

/-- Shared storage-quantity capture `(\d+(?:\.\d+)?\s*(?:gb|mb|tb)?)`. -/
def storQtyRE : RE :=
  rSeqs [rPlus rDig, rOpt (rSeqs [rc '.', rPlus rDig]), rStar rSp,
         rOpt (rAlts [rlit "gb", rlit "mb", rlit "tb"])]

/-- Enhanced CPU patterns (lines 608-612). -/
def cpuPatsEnh : List RE :=
  [rSeqs [rAlts [rlit "processor", rlit "cpu", rlit "processor:"],
          rStar rSp, rOpt (rc ':'), rStar rSp, .grp (rRange 10 200 rNotAngleNl)],
   rSeqs [rAlts [rSeqs [rlit "requires", rPlus rSp, rlit "a"], rlit "requires"],
          rPlus rSp, rAlts [rlit "processor", rlit "cpu"], rStar rNotAngleNl,
          rOpt (rc ':'), rStar rSp, .grp (rRange 10 200 rNotAngleNl)],
   rSeqs [rAlts [rlit "intel", rlit "amd", rlit "core", rlit "ryzen",
                 rlit "pentium", rlit "celeron", rlit "xeon", rlit "threadripper"],
          rRange 5 200 rNotAngleNl]]

/-- The anchored CPU label strip `^(processor|cpu|processor:)\s*:?\s*`. -/
def cpuStripRE : RE :=
  rSeqs [rAlts [rlit "processor", rlit "cpu", rlit "processor:"],
         rStar rSp, rOpt (rc ':'), rStar rSp]

/-- Enhanced CPU split delimiters
`[<>\n]|graphics|video|memory|ram|storage|os|system|gpu`. -/
def cpuDelimEnhRE : RE :=
  rAlts [rAngleNl, rlit "graphics", rlit "video", rlit "memory", rlit "ram",
         rlit "storage", rlit "os", rlit "system", rlit "gpu"]

/-- Enhanced GPU patterns (lines 633-637). -/
def gpuPatsEnh : List RE :=
  [rSeqs [rAlts [rlit "graphics", rSeqs [rlit "video", rStar rSp, rlit "card"],
                 rlit "gpu", rlit "graphics:"],
          rStar rSp, rOpt (rc ':'), rStar rSp, .grp (rRange 10 200 rNotAngleNl)],
   rSeqs [rAlts [rSeqs [rlit "requires", rPlus rSp, rlit "a"], rlit "requires"],
          rPlus rSp, rAlts [rlit "graphics", rlit "video", rlit "gpu"],
          rStar rNotAngleNl, rOpt (rc ':'), rStar rSp,
          .grp (rRange 10 200 rNotAngleNl)],
   rSeqs [rAlts [rlit "nvidia", rlit "amd", rlit "radeon", rlit "geforce",
                 rlit "gtx", rlit "rtx", rlit "rx",
                 rSeqs [rlit "intel", rStar rSp, rlit "hd"],
                 rSeqs [rlit "intel", rStar rSp, rlit "uhd"]],
          rRange 5 200 rNotAngleNl]]

/-- The anchored GPU label strip
`^(graphics|video|gpu|graphics card|video card)\s*:?\s*`. -/
def gpuStripRE : RE :=
  rSeqs [rAlts [rlit "graphics", rlit "video", rlit "gpu",
                rlit "graphics card", rlit "video card"],
         rStar rSp, rOpt (rc ':'), rStar rSp]

/-- GPU split delimiters
`[<>\n]|memory|ram|storage|os|system|processor|cpu` (both parsers). -/
def gpuDelimRE : RE :=
  rAlts [rAngleNl, rlit "memory", rlit "ram", rlit "storage", rlit "os",
         rlit "system", rlit "processor", rlit "cpu"]

/-- Enhanced RAM patterns (lines 656-660). -/
def ramPatsEnh : List RE :=
  [rSeqs [rAlts [rlit "memory", rlit "ram",
                 rSeqs [rlit "system", rStar rSp, rlit "memory"], rlit "memory:"],
          rStar rSp, rOpt (rc ':'), rStar rSp, .grp ramQtyRE],
   rSeqs [.grp ramQtyRE, rStar rSp, rAlts [rlit "memory", rlit "ram"]],
   rSeqs [rAlts [rlit "requires", rlit "minimum", rlit "recommended"],
          rStar rSp, rAlts [rlit "memory", rlit "ram"], rStar rNotAngleNl,
          rOpt (rc ':'), rStar rSp, .grp ramQtyRE]]

/-- Enhanced storage patterns (lines 690-694). -/
def storPatsEnh : List RE :=
  [rSeqs [rAlts [rlit "storage", rlit "space",
                 rSeqs [rlit "hard", rStar rSp, rlit "drive"],
                 rlit "hdd", rlit "ssd",
                 rSeqs [rlit "available", rStar rSp, rlit "space"],
                 rSeqs [rlit "disk", rStar rSp, rlit "space"], rlit "storage:"],
          rStar rSp, rOpt (rc ':'), rStar rSp, .grp storQtyRE],
   rSeqs [.grp storQtyRE, rStar rSp,
          rAlts [rlit "storage", rlit "space", rlit "available", rlit "required"]],
   rSeqs [rAlts [rlit "requires", rlit "minimum", rlit "recommended"],
          rStar rSp, rAlts [rlit "storage", rlit "space",
                            rSeqs [rlit "hard", rStar rSp, rlit "drive"]],
          rStar rNotAngleNl, rOpt (rc ':'), rStar rSp, .grp storQtyRE]]

/-- Enhanced OS patterns (lines 711-714). -/
def osPatsEnh : List RE :=
  [rSeqs [rAlts [rlit "os", rSeqs [rlit "operating", rStar rSp, rlit "system"],
                 rlit "system", rlit "os:"],
          rStar rSp, rOpt (rc ':'), rStar rSp, .grp (rRange 5 100 rNotAngleNl)],
   rSeqs [rAlts [rlit "windows", rlit "linux", rlit "macos",
                 rSeqs [rlit "mac", rStar rSp, rlit "os"]],
          rRange 0 50 rNotAngleNl]]

/-- Enhanced OS split delimiters
`[<>\n]|processor|cpu|graphics|gpu|memory|ram|storage` (line 723). -/
def osDelimEnhRE : RE :=
  rAlts [rAngleNl, rlit "processor", rlit "cpu", rlit "graphics", rlit "gpu",
         rlit "memory", rlit "ram", rlit "storage"]

/-- Enhanced CPU/GPU match processing (lines 614-629 and 639-653): trim the
picked text, drop the label, cut at the first delimiter, then accept when
longer than 5 characters and free of `http`/`href`, truncated to 200. -/
def enhTextField (stripRE delimRE : RE) (maxLen : Nat) (m : Str × Option Str) :
    Option Str :=
  let v0 := trimJS (matchPick m)
  if v0.isEmpty then none
  else
    let v1 := trimJS (stripAnchored stripRE v0)
    let v2 := trimJS (reSplitHead delimRE v1)
    if 5 < v2.length && !containsB v2 (str "http") && !containsB v2 (str "href")
    then some (v2.take maxLen)
    else none

/-- `parseInt` on a string whose leading token is digits (NaN as `none`). -/
def parseIntJS (s : Str) : Option Nat :=
  let t := (s.dropWhile jsSpace).takeWhile Char.isDigit
  if t.isEmpty then none else some (digitsToNat t)

/-- Decimal digits of a natural number. -/
def natToStr (n : Nat) : Str := Nat.toDigits 10 n

/-- `Math.round(num / 1024)` for a natural `num`: round half up. -/
def mathRound1024 (n : Nat) : Nat := (n + 512) / 1024

/-- Enhanced RAM match processing (lines 662-686): ensure a unit suffix
(GB assumed), convert an MB quantity of at least 1024 to a rounded GB
display, keep smaller MB displays; the numeric field is `parseSizeGB` of
the display string. -/
def ramProcessEnh (m : Str × Option Str) : Option (Str × Option ℚ) :=
  let ram0 := trimJS (matchPick m)
  if ram0.isEmpty then none
  else
    let lr := toLowerS ram0
    let ram1 :=
      if !containsB lr (str "gb") && !containsB lr (str "mb")
         && !containsB lr (str "tb")
      then ram0 ++ str " GB" else ram0
    let ram2 :=
      if containsB (toLowerS ram1) (str "mb") then
        match parseIntJS ram1 with
        | some n =>
          if 1024 ≤ n then natToStr (mathRound1024 n) ++ str " GB"
          else replaceFirstCI (str "mb") (str "MB") ram1
        | none => replaceFirstCI (str "mb") (str "MB") ram1
      else ram1
    some (ram2, parseSizeGB ram2)

/-- Enhanced storage match processing (lines 696-707): ensure a unit suffix,
no MB conversion; numeric field via `parseSizeGB`. -/
def storProcessEnh (m : Str × Option Str) : Option (Str × Option ℚ) :=
  let st0 := trimJS (matchPick m)
  if st0.isEmpty then none
  else
    let ls := toLowerS st0
    let st1 :=
      if !containsB ls (str "gb") && !containsB ls (str "mb")
         && !containsB ls (str "tb")
      then st0 ++ str " GB" else st0
    some (st1, parseSizeGB st1)

/-- Enhanced OS match processing (lines 716-730). -/
def osProcessEnh (m : Str × Option Str) : Option Str :=
  let os0 := trimJS (matchPick m)
  if os0.isEmpty then none
  else if 3 < os0.length && !containsB os0 (str "http") then
    let clean := trimJS (reSplitHead osDelimEnhRE os0)
    if 3 < clean.length then some (clean.take 100) else none
  else none

/-- parseSteamHTML, the enhanced parser
(src/scripts/merge-fallback-requirements.js lines 572-733): all-null
record for empty input or stripped text shorter than 5 characters, else
per-field first-match extraction. -/
def parseSteamHTML (html : Str) : ReqTier :=
  if (trimJS html).isEmpty then nullTier
  else
    let text := stripEnhanced html
    if text.length < 5 then nullTier
    else
      let ramR := scanPatterns ramPatsEnh ramProcessEnh text
      let stR := scanPatterns storPatsEnh storProcessEnh text
      { cpu := scanPatterns cpuPatsEnh (enhTextField cpuStripRE cpuDelimEnhRE 200) text
        gpu := scanPatterns gpuPatsEnh (enhTextField gpuStripRE gpuDelimRE 200) text
        ram := ramR.map Prod.fst
        ramGB := ramR.bind Prod.snd
        storage := stR.map Prod.fst
        storageGB := stR.bind Prod.snd
        os := scanPatterns osPatsEnh osProcessEnh text }

/-!  Legacy Steam HTML parser, src/utils/parseRequirements.js lines 11-164.
Its record carries plain strings: fields keep the Arabic placeholder
instead of null when nothing is extracted.  -/

/-- The Arabic placeholder text meaning `no requirements exist`. -/
def arNoReq : Str := str "لا توجد متطلبات"

/-- The Arabic text meaning `not available` matched by the legacy guard. -/
def arNotAvail : Str := str "غير متوفر"

/-- Legacy parser record: five plain-string fields. -/
structure LegacyRecord where
  cpu : Str
  gpu : Str
  ram : Str
  storage : Str
  os : Str
deriving DecidableEq, Repr

/-- The legacy default record: every field holds the Arabic placeholder
(src/utils/parseRequirements.js lines 13-19). -/
def legacyDefault : LegacyRecord := ⟨arNoReq, arNoReq, arNoReq, arNoReq, arNoReq⟩

/-- Markup stripping of the legacy parser (lines 26-44). -/
def stripLegacy (html : Str) : Str :=
  let t := reReplaceAll brTagRE (str "\n") html
  let t := reReplaceAll strongOpenRE [] t
  let t := reReplaceAll (rlit "</strong>") [] t
  let t := reReplaceAll bOpenRE [] t
  let t := reReplaceAll (rlit "</b>") [] t
  let t := reReplaceAll anyTagSimpleRE (str " ") t
  let t := replaceAllLit (str "&nbsp;") (str " ") t
  let t := replaceAllLit (str "&amp;") (str "&") t
  let t := replaceAllLit (str "&lt;") (str "<") t
  let t := replaceAllLit (str "&gt;") (str ">") t
  let t := replaceAllLit (str "&quot;") (str "\"") t
  let t := replaceAllLit (str "&#39;") (str "'") t
  let t := replaceAllLit (str "&#x27;") (str "'") t
  let t := replaceAllLit (str "&#8217;") (str "'") t
  let t := replaceAllLit (str "&#8211;") (str "-") t
  let t := replaceAllLit (str "&#8212;") (str "--") t
  let t := reReplaceAll wsRunRE (str " ") t
  trimJS t

/-- Legacy CPU patterns (lines 55-59). -/
def cpuPatsLeg : List RE :=
  [rSeqs [rAlts [rlit "processor", rlit "cpu", rlit "processor:"],
          rStar rSp, rOpt (rc ':'), rStar rSp, .grp (rRange 10 200 rNotAngleNl)],
   rSeqs [rAlts [rlit "intel", rlit "amd", rlit "core", rlit "ryzen",
                 rlit "pentium", rlit "celeron", rlit "xeon"],
          rRange 5 200 rNotAngleNl],
   rSeqs [rAlts [rlit "minimum", rlit "recommended"], rStar rSp,
          rAlts [rlit "processor", rlit "cpu"], rStar rNotAngleNl,
          rOpt (rc ':'), rStar rSp, .grp (rRange 10 200 rNotAngleNl)]]

/-- Legacy CPU split delimiters
`[<>\n]|graphics|video|memory|ram|storage|os|system` (line 68). -/
def cpuDelimLegRE : RE :=
  rAlts [rAngleNl, rlit "graphics", rlit "video", rlit "memory", rlit "ram",
         rlit "storage", rlit "os", rlit "system"]

/-- Legacy GPU patterns (lines 78-82). -/
def gpuPatsLeg : List RE :=
  [rSeqs [rAlts [rlit "graphics", rlit "video", rlit "gpu",
                 rlit "graphics card", rlit "video card"],
          rStar rSp, rOpt (rc ':'), rStar rSp, .grp (rRange 10 200 rNotAngleNl)],
   rSeqs [rAlts [rlit "nvidia", rlit "amd", rlit "radeon", rlit "geforce",
                 rlit "gtx", rlit "rtx", rlit "rx",
                 rlit "intel hd", rlit "intel uhd"],
          rRange 5 200 rNotAngleNl],
   rSeqs [rAlts [rlit "minimum", rlit "recommended"], rStar rSp,
          rAlts [rlit "graphics", rlit "video", rlit "gpu"], rStar rNotAngleNl,
          rOpt (rc ':'), rStar rSp, .grp (rRange 10 200 rNotAngleNl)]]

/-- Legacy RAM patterns (lines 101-105). -/
def ramPatsLeg : List RE :=
  [rSeqs [rAlts [rlit "memory", rlit "ram"], rStar rSp, rOpt (rc ':'),
          rStar rSp, .grp ramQtyRE],
   rSeqs [.grp ramQtyRE, rStar rSp, rAlts [rlit "memory", rlit "ram"]],
   rSeqs [rAlts [rlit "minimum", rlit "recommended"], rStar rSp,
          rAlts [rlit "memory", rlit "ram"], rStar rNotAngleNl,
          rOpt (rc ':'), rStar rSp, .grp ramQtyRE]]

/-- Legacy storage patterns (lines 129-133). -/
def storPatsLeg : List RE :=
  [rSeqs [rAlts [rlit "storage", rlit "space", rlit "hard drive", rlit "hdd",
                 rlit "ssd", rlit "available space", rlit "disk space"],
          rStar rSp, rOpt (rc ':'), rStar rSp, .grp storQtyRE],
   rSeqs [.grp storQtyRE, rStar rSp,
          rAlts [rlit "storage", rlit "space", rlit "available", rlit "required"]],
   rSeqs [rAlts [rlit "minimum", rlit "recommended"], rStar rSp,
          rAlts [rlit "storage", rlit "space"], rStar rNotAngleNl,
          rOpt (rc ':'), rStar rSp, .grp storQtyRE]]

/-- Legacy OS patterns (lines 148-151). -/
def osPatsLeg : List RE :=
  [rSeqs [rAlts [rlit "os", rlit "operating system", rlit "system"],
          rStar rSp, rOpt (rc ':'), rStar rSp, .grp (rRange 5 100 rNotAngleNl)],
   rSeqs [rAlts [rlit "windows", rlit "linux", rlit "macos", rlit "mac os"],
          rRange 0 50 rNotAngleNl]]

/-- Legacy CPU/GPU processing (lines 60-75 and 83-98): strip the label
first, then check length and `http`/`href`, then cut at the first
delimiter and re-check the length; truncate to 150. -/
def legTextField (stripRE delimRE : RE) (m : Str × Option Str) : Option Str :=
  let v0 := trimJS (matchPick m)
  let v1 := trimJS (stripAnchored stripRE v0)
  if !v1.isEmpty && 5 < v1.length && !containsB v1 (str "http")
     && !containsB v1 (str "href") then
    let v2 := trimJS (reSplitHead delimRE v1)
    if 5 < v2.length then some (v2.take 150) else none
  else none

/-- Legacy RAM processing (lines 106-126): unit suffix ensured, MB of at
least 1024 converted to a rounded GB display; always succeeds on a match. -/
def ramProcessLeg (m : Str × Option Str) : Option Str :=
  let ram0 := matchPickTrim m
  let lr := toLowerS ram0
  let ram1 :=
    if !containsB lr (str "gb") && !containsB lr (str "mb")
       && !containsB lr (str "tb")
    then ram0 ++ str " GB" else ram0
  let ram2 :=
    if containsB (toLowerS ram1) (str "mb") then
      match parseIntJS ram1 with
      | some n =>
        if 1024 ≤ n then natToStr (mathRound1024 n) ++ str " GB"
        else replaceFirstCI (str "mb") (str "MB") ram1
      | none => replaceFirstCI (str "mb") (str "MB") ram1
    else ram1
  some ram2

/-- Legacy storage processing (lines 134-145). -/
def storProcessLeg (m : Str × Option Str) : Option Str :=
  let st0 := trimJS (matchPick m)
  let ls := toLowerS st0
  some (if !containsB ls (str "gb") && !containsB ls (str "mb")
           && !containsB ls (str "tb")
        then st0 ++ str " GB" else st0)

/-- Legacy OS processing (lines 152-161): no delimiter split; truncate
to 80. -/
def osProcessLeg (m : Str × Option Str) : Option Str :=
  let os0 := trimJS (matchPick m)
  if !os0.isEmpty && 3 < os0.length && !containsB os0 (str "http") then
    some (os0.take 80)
  else none

/-- parseSteamHTML, the legacy parser (src/utils/parseRequirements.js
lines 11-164): returns the Arabic placeholder record for empty input, the
literal Arabic `not available` marker, or any input containing the phrase
`no requirements` case-insensitively; otherwise extracts per field,
keeping the placeholder for fields without a match. -/
def parseSteamHTMLLegacy (html : Str) : LegacyRecord :=
  if html.isEmpty || html = arNotAvail || (trimJS html).isEmpty
     || containsB (toLowerS html) (str "no requirements") then
    legacyDefault
  else
    let text := stripLegacy html
    { cpu := (scanPatterns cpuPatsLeg (legTextField cpuStripRE cpuDelimLegRE) text).getD arNoReq
      gpu := (scanPatterns gpuPatsLeg (legTextField gpuStripRE gpuDelimRE) text).getD arNoReq
      ram := (scanPatterns ramPatsLeg ramProcessLeg text).getD arNoReq
      storage := (scanPatterns storPatsLeg storProcessLeg text).getD arNoReq
      os := (scanPatterns osPatsLeg osProcessLeg text).getD arNoReq }

/-!  Concrete inputs used by the claim theorems.  -/

/-- The user profile of the scoring-boundary claim. -/
def c1User : UserProfile :=
  { cpu := str "Intel Core i5-8400", gpu := str "NVIDIA GTX 1060",
    ramGB := 16, storageGB := 500, os := str "Windows 10" }

/-- The recommended tier of the scoring-boundary claim. -/
def c1Rec : ReqTier :=
  { cpu := some (str "Intel Core i5-2500K"), gpu := some (str "NVIDIA GTX 660"),
    ram := some (str "8 GB"), ramGB := none,
    storage := some (str "57.2 GB"), storageGB := none,
    os := some (str "Windows 10") }

/-- The requirements record of the scoring-boundary claim. -/
def c1Reqs : GameReqs := { minimum := none, recommended := some c1Rec }

/-- A tier whose only populated field is the cpu: discovered recommended
data with no minimum data. -/
def c4RecOnly : ReqTier := { nullTier with cpu := some (str "Intel Core i5-2500K") }

/-- A fallback-table entry with no recommended override. -/
def c4WitEntry : FallbackEntry :=
  ⟨some (str "Intel Core 2 Duo"), none, some (str "4 GB"), none, none, none⟩

/-- A populated requirement tier used by the resolver runs. -/
def c5Tier : ReqTier :=
  { nullTier with cpu := some (str "Intel Core i5"), ram := some (str "8 GB") }

/-- Fallback-table requirements used by the resolver runs. -/
def c5Fb : GameReqs2 := ⟨c5Tier, c5Tier⟩

/-- A valid game record of the default (offline single-player) kind, with a
known Steam app id. -/
def c5Meta : GameMetaU := ⟨str "g1", str "Doom Eternal", some 782330⟩

/-- Cache miss; the fallback table has data; Steam would also answer if
asked; cache writes succeed. -/
def c5Env : EnvU :=
  { cached := none, fallbackRes := some c5Fb, searchAppId := none,
    steamRes := none, writeOk := true }

/-- An offline-classified part_004 game (no online keyword, 25.4 GB). -/
def c5OffMeta : GameMeta4 := ⟨[], str "25.4 GB"⟩

/-- An online-classified part_004 game. -/
def c5OnlMeta : GameMeta4 := ⟨[str "Online Shooter"], str "30 GB"⟩

/-- A populated requirement tier for the cache-write runs. -/
def c6Tier : ReqTier :=
  { nullTier with gpu := some (str "NVIDIA GTX 1060"), ram := some (str "12 GB") }

/-- Fallback-table requirements for the cache-write runs. -/
def c6Fb : GameReqs2 := ⟨c6Tier, c6Tier⟩

/-- A valid game record. -/
def c6Meta : GameMetaU := ⟨str "g2", str "Elden Ring", none⟩

/-- Cache miss, fallback data available, cache write fails. -/
def c6EnvFail : EnvU :=
  { cached := none, fallbackRes := some c6Fb, searchAppId := none,
    steamRes := none, writeOk := false }

/-- Cache miss, fallback data available, cache write succeeds. -/
def c6EnvOk : EnvU :=
  { cached := none, fallbackRes := some c6Fb, searchAppId := none,
    steamRes := none, writeOk := true }

/-- Cache miss and every source empty; cache write succeeds. -/
def c6EnvMiss : EnvU :=
  { cached := none, fallbackRes := none, searchAppId := none,
    steamRes := none, writeOk := true }

/-- A user profile with empty texts and no storage, used to isolate the
RAM axis. -/
def c9Base : UserProfile := ⟨[], [], 0, 0, []⟩

/-- A weight record with a negative RAM weight (any weight record passes
the `Object.assign` merge). -/
def c9W : Weights := ⟨0, 0, -1, 0, 1⟩

/-- Requirements with a stated RAM requirement, for the monotonicity
witness. -/
def c9Reqs : GameReqs :=
  { minimum := some { nullTier with ram := some (str "8 GB") }, recommended := none }

attribute [local semireducible] Rat.mul Rat.add Rat.sub Rat.inv Rat.ofScientific

/-- Helper: `clamp01` is monotone. -/
theorem clamp01_mono {a b : ℚ} (h : a ≤ b) : clamp01 a ≤ clamp01 b := by
  unfold clamp01; split_ifs <;> linarith

/-- Helper: the RAM axis score is monotone in the user's RAM for any fixed
requirement value. -/
theorem ramScoreOf_mono {r1 r2 : ℚ} (h : r1 ≤ r2) (q : Option ℚ) :
    ramScoreOf r1 q ≤ ramScoreOf r2 q := by
  unfold ramScoreOf
  split_ifs with h1 h2 h3
  · apply clamp01_mono
    have hq : 0 < q.getD 0 := by
      cases q with
      | none => simp [posO] at h1
      | some x => simpa [posO] using h1
    exact (div_le_div_iff_of_pos_right hq).mpr h
  all_goals linarith

/-- C1 (counterexample): for the claimed input — user Intel Core i5-8400 /
GTX 1060 / 16 GB / 500 GB / Windows 10 against recommended Intel Core
i5-2500K / GTX 660 / 8 GB / 57.2 GB / Windows 10 — the scoring engine with
default weights does NOT return score 1.00 with tier Strong. -/
theorem c1_claim_false :
    ¬ ((computePerformanceScore c1User (some c1Reqs) defaultWeights).score = 1
       ∧ (computePerformanceScore c1User (some c1Reqs) defaultWeights).tier
           = str "Strong") := by
  decide

/-- C1 (amended): on that input the engine returns score 41/50 = 0.82 and
tier Medium — the CPU and GPU axes each score 0.7 via the token rule of
`crudeCpuGpuMatch`, since neither text contains the other. -/
theorem c1_score_is_medium :
    (computePerformanceScore c1User (some c1Reqs) defaultWeights).score = 41/50
    ∧ (computePerformanceScore c1User (some c1Reqs) defaultWeights).tier
        = str "Medium" := by
  decide

/-- C2: `crudeCpuGpuMatch` equals, on every pair of strings, the claimed
cascade: 0 for an empty requirement, else 0 for an empty user string, else
1.0 on mutual case-insensitive containment, else 0.7 when some requirement
token of length at least 2 occurs in the lower-cased user string, else 0.4
when both contain a common brand token, else 0. -/
theorem c2_crudeMatch_spec :
    ∀ userStr reqStr : Str,
    crudeCpuGpuMatch userStr reqStr = crudeMatchSpec userStr reqStr := by
  intro u r
  unfold crudeCpuGpuMatch crudeMatchSpec
  by_cases hr : r = []
  · simp [hr]
  · by_cases hu : u = []
    · simp [hr, hu, toLowerS]
    · have hu2 : toLowerS u ≠ [] := by simpa [toLowerS] using hu
      simp only [if_neg hr, if_neg hu, if_neg hu2]
      simp [List.any_eq_true, Bool.and_eq_true, decide_eq_true_eq]

/-- C3: for every user profile, requirements record and weight record, the
final score equals the clamped sum of weight times per-axis score over the
five axes, and the tier is the pure threshold function of that score
(0.85 Strong, 0.60 Medium, 0.35 Weak, else Cannot Run). -/
theorem c3_score_formula :
    ∀ (user : UserProfile) (reqs : Option GameReqs) (W : Weights),
    (computePerformanceScore user reqs W).score
      = clamp01 (W.cpu * (computePerformanceScore user reqs W).breakdown.cpuScore
          + W.gpu * (computePerformanceScore user reqs W).breakdown.gpuScore
          + W.ram * (computePerformanceScore user reqs W).breakdown.ramScore
          + W.storage * (computePerformanceScore user reqs W).breakdown.storageScore
          + W.os * (computePerformanceScore user reqs W).breakdown.osScore)
    ∧ (computePerformanceScore user reqs W).tier
      = (if 0.85 ≤ (computePerformanceScore user reqs W).score then str "Strong"
         else if 0.6 ≤ (computePerformanceScore user reqs W).score then str "Medium"
         else if 0.35 ≤ (computePerformanceScore user reqs W).score then str "Weak"
         else str "Cannot Run") :=
  fun _ _ _ => ⟨rfl, rfl⟩

/-- C4 (counterexample): when only the recommended tier is discovered, the
Steam adapter produces `minimum = {}` (the empty record) and does NOT
back-fill minimum from recommended, so the two tiers differ. -/
theorem c4_claim_false :
    steamNormalizeReqs none (some c4RecOnly) = some ⟨nullTier, c4RecOnly⟩
    ∧ nullTier ≠ c4RecOnly := by
  decide

/-- C4 (amended): back-filling is one-directional.  When only the minimum
tier is discovered the Steam adapter copies it into recommended, and a
fallback entry without a recommended override yields recommended equal to
minimum field-for-field; minimum is never back-filled from recommended. -/
theorem c4_backfill_min_to_rec :
    ∀ (m : ReqTier) (e : FallbackEntry), hasAnyCore m = true → e.recommended = none →
    steamNormalizeReqs (some m) none = some ⟨m, m⟩
    ∧ (normalizeFallbackEntry e).recommended = (normalizeFallbackEntry e).minimum := by
  intro m e hm he
  constructor
  · simp [steamNormalizeReqs, hm]
  · cases e with
    | mk cpu gpu ram storage os rec =>
      simp only at he
      subst he
      simp [normalizeFallbackEntry, fbMin, fbRec, pickS, orNullS, truthyS]

/-- C4 (witness): the one-directional back-fill at a concrete tier with cpu
data and a concrete fallback entry without an override. -/
theorem c4_backfill_min_to_rec_witness :
    steamNormalizeReqs (some c4RecOnly) none = some ⟨c4RecOnly, c4RecOnly⟩
    ∧ (normalizeFallbackEntry c4WitEntry).recommended
        = (normalizeFallbackEntry c4WitEntry).minimum :=
  c4_backfill_min_to_rec c4RecOnly c4WitEntry (by decide) rfl

/-- C5 (counterexample): on a cache miss for a default/offline game with a
known Steam app id, the utils/fetchRequirements.js resolver consults the
fallback-table adapter FIRST — and, when the table has data, returns the
fallback entry without ever consulting Steam — contradicting the claimed
category-based order in which the fallback table is only the final
attempt after the other adapters return no data. -/
theorem c5_claim_false :
    (getRequirementsForGameU c5Meta false c5Env).calls = [SrcAdapter.fallbackTable]
    ∧ (getRequirementsForGameU c5Meta false c5Env).result
        = .ok ⟨str "fallback", some c5Fb⟩ := by
  decide

/-- C5 (amended): the part_004 resolver does implement the category-based
priority order: offline games consult Steam first, online games consult the
third-party (RAWG) catalog first, and the fallback table is always the last
entry of the priority list. -/
theorem c5_category_order :
    ∀ m : GameMeta4,
    (classifyGameType m = GType.offline →
      (tryOrder m).head? = some SrcAdapter.steam
      ∧ (tryOrder m).getLast? = some SrcAdapter.fallbackTable)
    ∧ (classifyGameType m = GType.online →
      (tryOrder m).head? = some SrcAdapter.rawg
      ∧ (tryOrder m).getLast? = some SrcAdapter.fallbackTable) := by
  intro m
  constructor <;> intro h <;> simp [tryOrder, h]

/-- C5 (witness): the category order at a concrete offline game and a
concrete online game. -/
theorem c5_category_order_witness :
    ((tryOrder c5OffMeta).head? = some SrcAdapter.steam
      ∧ (tryOrder c5OffMeta).getLast? = some SrcAdapter.fallbackTable)
    ∧ ((tryOrder c5OnlMeta).head? = some SrcAdapter.rawg
      ∧ (tryOrder c5OnlMeta).getLast? = some SrcAdapter.fallbackTable) :=
  ⟨(c5_category_order c5OffMeta).1 (by decide),
   (c5_category_order c5OnlMeta).2 (by decide)⟩

/-- C6 (code bug): with valid id and name, a cache miss, fallback data
available, and a failing cache write, the resolver raises the cache-write
failure to its caller instead of returning the freshly resolved entry; the
same run with a succeeding write returns the fallback entry.  Missing
id raises invalid input, and an all-miss run returns the cached
`{source:'none', requirements:null}` entry. -/
theorem c6_cache_write_bug :
    (getRequirementsForGameU c6Meta false c6EnvFail).result
      = .error ResolveErr.cacheWriteFailure
    ∧ (getRequirementsForGameU c6Meta false c6EnvOk).result
      = .ok ⟨str "fallback", some c6Fb⟩
    ∧ (getRequirementsForGameU ⟨[], str "Elden Ring", none⟩ false c6EnvOk).result
      = .error ResolveErr.invalidInput
    ∧ (getRequirementsForGameU c6Meta false c6EnvMiss).result
      = .ok ⟨str "none", none⟩ := by
  decide

/-- C7 (counterexample): the legacy parser of src/utils/parseRequirements.js
maps the boilerplate input `no requirements` to the placeholder record — all
five fields hold the non-empty Arabic placeholder string, not null. -/
theorem c7_claim_false :
    parseSteamHTMLLegacy (str "no requirements") = legacyDefault
    ∧ legacyDefault.cpu = arNoReq ∧ arNoReq ≠ [] := by
  decide

/-- C7 (amended): the enhanced parser returns the all-null record for every
input whose stripped text is shorter than 5 characters, and for the
repository's boilerplate no-requirements phrases (English and Arabic). -/
theorem c7_enhanced_nullability :
    (∀ html : Str, (stripEnhanced html).length < 5 → parseSteamHTML html = nullTier)
    ∧ parseSteamHTML (str "no requirements") = nullTier
    ∧ parseSteamHTML (str "No requirements specified") = nullTier
    ∧ parseSteamHTML arNoReq = nullTier
    ∧ parseSteamHTML arNotAvail = nullTier := by
  refine ⟨?_, by decide, by decide, by decide, by decide⟩
  intro html h
  simp only [parseSteamHTML]
  split_ifs
  · rfl
  · rfl

/-- C7 (witness): the short-input rule applied at the concrete input `ab`. -/
theorem c7_enhanced_nullability_witness :
    parseSteamHTML (str "ab") = nullTier :=
  c7_enhanced_nullability.1 (str "ab") (by decide)

/-- C8 (counterexample): the claimed unit conversions do not happen on the
numeric fields: an MB quantity below 1024 keeps its raw number (512, not
512/1024) and a TB quantity keeps its raw number (1, not 1024). -/
theorem c8_claim_false :
    (parseSteamHTML (str "Memory: 512 MB")).ramGB = some 512
    ∧ ((512 : ℚ) ≠ 512 / 1024)
    ∧ (parseSteamHTML (str "Storage: 1 TB")).storageGB = some 1
    ∧ ((1 : ℚ) ≠ 1 * 1024) := by
  refine ⟨by decide, by norm_num, by decide, by norm_num⟩

/-- C8 (amended): ramGB is the leading numeric token of the normalized
display string; since display normalization converts MB quantities of at
least 1024 to GB, the captured quantities `8 GB`, `8192 MB` and bare `8`
all yield ramGB = 8 (and the display string `8 GB`). -/
theorem c8_ram_normalization :
    (parseSteamHTML (str "Memory: 8 GB")).ramGB = some 8
    ∧ (parseSteamHTML (str "Memory: 8192 MB")).ramGB = some 8
    ∧ (parseSteamHTML (str "Memory: 8")).ramGB = some 8
    ∧ (parseSteamHTML (str "Memory: 8192 MB")).ram = some (str "8 GB")
    ∧ (parseSteamHTML (str "Memory: 8")).ram = some (str "8 GB") := by
  refine ⟨by decide, by decide, by decide, by decide, by decide⟩

/-- C9 (counterexample): with a negative RAM weight — which the weights
parameter admits, since `Object.assign` merges any caller-supplied values —
raising ramGB from 0 to 1 raises the RAM axis score but strictly lowers the
overall score, so the claim quantified over every weight record fails. -/
theorem c9_claim_false :
    (computePerformanceScore { c9Base with ramGB := 0 } none c9W).breakdown.ramScore
      ≤ (computePerformanceScore { c9Base with ramGB := 1 } none c9W).breakdown.ramScore
    ∧ (computePerformanceScore { c9Base with ramGB := 1 } none c9W).score
      < (computePerformanceScore { c9Base with ramGB := 0 } none c9W).score := by
  decide

/-- C9 (amended): for every fixed requirements record, fixed weights with a
nonnegative RAM weight (the defaults qualify) and fixed other user fields,
both the RAM axis score and the overall score are monotonically
non-decreasing in the user's ramGB over ramGB at least 0. -/
theorem c9_ram_monotone :
    ∀ (user : UserProfile) (reqs : Option GameReqs) (W : Weights) (r1 r2 : ℚ),
    0 ≤ W.ram → 0 ≤ r1 → r1 ≤ r2 →
    (computePerformanceScore { user with ramGB := r1 } reqs W).breakdown.ramScore
      ≤ (computePerformanceScore { user with ramGB := r2 } reqs W).breakdown.ramScore
    ∧ (computePerformanceScore { user with ramGB := r1 } reqs W).score
      ≤ (computePerformanceScore { user with ramGB := r2 } reqs W).score := by
  intro user reqs W r1 r2 hW _ h12
  have hram : ramScoreOf r1 (reqRamOf (pickReqTier reqs))
      ≤ ramScoreOf r2 (reqRamOf (pickReqTier reqs)) := ramScoreOf_mono h12 _
  refine ⟨hram, ?_⟩
  have hmul : W.ram * ramScoreOf r1 (reqRamOf (pickReqTier reqs))
      ≤ W.ram * ramScoreOf r2 (reqRamOf (pickReqTier reqs)) :=
    mul_le_mul_of_nonneg_left hram hW
  show clamp01 _ ≤ clamp01 _
  apply clamp01_mono
  simp only [computePerformanceScore]
  linarith

/-- C9 (witness): monotonicity of the scorer at 4 GB versus 16 GB against
an 8 GB requirement under the default weights. -/
theorem c9_ram_monotone_witness :
    (computePerformanceScore { c9Base with ramGB := 4 } (some c9Reqs) defaultWeights).breakdown.ramScore
      ≤ (computePerformanceScore { c9Base with ramGB := 16 } (some c9Reqs) defaultWeights).breakdown.ramScore
    ∧ (computePerformanceScore { c9Base with ramGB := 4 } (some c9Reqs) defaultWeights).score
      ≤ (computePerformanceScore { c9Base with ramGB := 16 } (some c9Reqs) defaultWeights).score :=
  c9_ram_monotone c9Base (some c9Reqs) defaultWeights 4 16
    (by norm_num [defaultWeights]) (by norm_num) (by norm_num)

/-- C10: the cache filename map is not injective — the distinct ids
`game.v1` and `game-v1` share one cache path, every store resolves both ids
to the same entry, and writing under one id is read back under the other. -/
theorem c10_cachePath_not_injective :
    cachePath (str "game.v1") = cachePath (str "game-v1")
    ∧ str "game.v1" ≠ str "game-v1"
    ∧ (∀ store : Str → Option CacheDataM,
        readCacheKeyed store (str "game.v1") = readCacheKeyed store (str "game-v1"))
    ∧ (∀ (store : Str → Option CacheDataM) (d : CacheDataM),
        readCacheKeyed (writeCacheKeyed store (str "game.v1") d) (str "game-v1") = some d) := by
  refine ⟨by decide, by decide, fun store => rfl, fun store d => ?_⟩
  simp only [readCacheKeyed, writeCacheKeyed]
  rw [if_pos (by decide)]
